import Mathlib

/-!
Verification development for the NexAI Next.js repository.

The subject is the chat-request orchestration core: the `POST /api/chat`
route handler, the mock responder it falls back to, and the Redis response
cache module.  Every definition below is a shallow embedding of a concrete
piece of the TypeScript source; the source file and line range appear in the
doc comment of each definition.  Strings are modelled as Lean `String`
(lists of characters), JavaScript numbers as `Rat`, and the impure
surroundings of the handler (the environment, the fetch result, the mock
responder's random pick and the clock) as explicit oracle arguments.
-/

set_option maxRecDepth 100000

namespace NexAI

/-- JavaScript whitespace: the code points matched by the regular-expression
class `\s` and removed by `String.prototype.trim` (ECMAScript WhiteSpace
together with LineTerminator). -/
def isJsSpace (c : Char) : Bool :=
  let n := c.toNat
  n == 0x20 || n == 0x09 || n == 0x0a || n == 0x0b || n == 0x0c || n == 0x0d ||
  n == 0xa0 || n == 0x1680 || (0x2000 ≤ n && n ≤ 0x200a) ||
  n == 0x2028 || n == 0x2029 || n == 0x202f || n == 0x205f ||
  n == 0x3000 || n == 0xfeff

/-- The punctuation characters stripped by `normalizeCacheKey`: the regex
character class of period, comma, exclamation mark, question mark,
apostrophe, double quote and backslash (src/src/lib/cache.ts line 89). -/
def isStrippedPunct (c : Char) : Bool :=
  let n := c.toNat
  n == 0x2e || n == 0x2c || n == 0x21 || n == 0x3f ||
  n == 0x27 || n == 0x22 || n == 0x5c

/-- Character-wise simple (ASCII) case lowering, modelling
`String.prototype.toLowerCase`. -/
def jsLowerChar (c : Char) : Char :=
  if 65 ≤ c.toNat ∧ c.toNat ≤ 90 then Char.ofNat (c.toNat + 32) else c

/-- `String.prototype.trim` on a character list: drop whitespace from both
ends. -/
def jsTrimList (l : List Char) : List Char :=
  ((l.dropWhile isJsSpace).reverse.dropWhile isJsSpace).reverse

/-- `String.prototype.trim`. -/
def jsTrim (s : String) : String := ⟨jsTrimList s.data⟩

/-- One pass of `replace(\s-runs, single space)`: every maximal run of
whitespace becomes one space character.  The Boolean argument records
whether the previous character was part of a whitespace run. -/
def collapseGo : Bool → List Char → List Char
  | _, [] => []
  | prev, c :: rest =>
    if isJsSpace c then
      if prev then collapseGo true rest
      else ' ' :: collapseGo true rest
    else c :: collapseGo false rest

/-- The whitespace-collapsing step of `normalizeCacheKey`
(src/src/lib/cache.ts line 90). -/
def collapseSpaces (l : List Char) : List Char := collapseGo false l

/-- The punctuation-stripping step of `normalizeCacheKey`
(src/src/lib/cache.ts line 89). -/
def stripPunct (l : List Char) : List Char := l.filter (fun c => !isStrippedPunct c)

/-- src/src/lib/cache.ts lines 85-91: trim, lowercase, strip the punctuation
set, collapse whitespace runs to a single space. -/
def normalizeCacheKey (s : String) : String :=
  ⟨collapseSpaces (stripPunct ((jsTrimList s.data).map jsLowerChar))⟩

lemma normalizeCacheKey_sample :
    normalizeCacheKey "  What   COURSES?? are, available!  " = "what courses are available" := by
  decide

/-! ## The response cache (src/src/lib/cache.ts) -/

/-- JavaScript truthiness of an optional string (an absent environment
variable and the empty string are both falsy). -/
def jsTruthyOptStr : Option String → Bool
  | none => false
  | some s => s != ""

/-- `a || b` on an optional string and a string default. -/
def jsOrStr (v : Option String) (d : String) : String :=
  match v with
  | none => d
  | some s => if s == "" then d else s

/-- src/src/lib/cache.ts lines 7-30: `getRedisClient` yields a usable client
only when both environment variables are set to non-empty strings and the
client construction did not throw (`initOk`); otherwise the caught or
short-circuited failure leaves the module without a client. -/
def clientAvailable (url token : Option String) (initOk : Bool) : Bool :=
  jsTruthyOptStr url && jsTruthyOptStr token && initOk

/-- The remote Redis store: an association of keys to values with their
absolute expiry instants (seconds). -/
structure CacheState where
  store : List (String × String × Nat)
deriving DecidableEq

/-- Outcome oracle for one Redis network operation. -/
inductive RedisOutcome
  | ok
  | failed (msg : String)
deriving DecidableEq

/-- src/src/lib/cache.ts lines 37-52 (`getCache`): without a client the call
is skipped; a throwing GET is caught; otherwise the store's unexpired value
for the key is returned.  All three failure shapes produce `none`. -/
def getCache (avail : Bool) (op : RedisOutcome) (now : Nat) (st : CacheState)
    (key : String) : Option String :=
  if !avail then none
  else
    match op with
    | .failed _ => none
    | .ok =>
      match st.store.find? (fun e => e.1 == key) with
      | none => none
      | some e => if now < e.2.2 then some e.2.1 else none

/-- src/src/lib/cache.ts lines 59-73 (`setCache`): without a client the call
is skipped and a throwing SETEX is caught, leaving the store untouched;
otherwise SETEX stores the value under the key with a 21600-second TTL,
replacing any previous entry for that key. -/
def setCache (avail : Bool) (op : RedisOutcome) (now : Nat) (st : CacheState)
    (key value : String) : CacheState :=
  if !avail then st
  else
    match op with
    | .failed _ => st
    | .ok => ⟨(key, value, now + 21600) :: st.store.filter (fun e => !(e.1 == key))⟩

/-! ## The mock responder (src/unnamed/part_006, lib/mockResponses.ts) -/

/-- src/unnamed/part_006: the canned response for keyword category "courses". -/
def coursesResponse : String :=
  "**Available Courses**\n\nHere are some courses that might interest you:\n\n• **AI & Machine Learning Fundamentals**\n  Duration: 8 weeks | Level: Beginner\n  Covers: Python, TensorFlow, Neural Networks\n\n• **Cloud Computing with AWS**\n  Duration: 12 weeks | Level: Intermediate  \n  Covers: EC2, S3, Lambda, API Gateway\n\n• **Data Science & Analytics**\n  Duration: 10 weeks | Level: Intermediate\n  Covers: Statistics, Visualization, Big Data\n\n• **Web Development Full Stack**\n  Duration: 16 weeks | Level: Beginner to Advanced\n  Covers: React, Node.js, Databases\n\nWould you like more details about any specific course?"

/-- src/unnamed/part_006: the canned response for keyword category "recent jobs". -/
def recentJobsResponse : String :=
  "**Recent Job Opportunities**\n\nHere are some recent job postings that match your profile:\n\n• **Senior AI Engineer** - TechCorp\n  Location: Remote | Salary: $120k - $150k\n  Requirements: 5+ years ML experience\n\n• **Cloud Solutions Architect** - CloudTech\n  Location: San Francisco, CA | Salary: $140k - $180k\n  Requirements: AWS certification, 7+ years experience\n\n• **Full Stack Developer** - StartupXYZ\n  Location: Austin, TX | Salary: $90k - $120k\n  Requirements: React, Node.js, 3+ years experience\n\n• **Data Scientist** - DataCorp\n  Location: New York, NY | Salary: $110k - $140k\n  Requirements: Python, SQL, Statistics\n\nWould you like me to help you prepare for any of these positions?"

/-- src/unnamed/part_006: the canned response for keyword category "terms". -/
def termsResponse : String :=
  "**Technical Terms & Concepts**\n\nHere are some important technical terms explained:\n\n• **API Gateway**: A service that acts as a single entry point for multiple backend services, handling routing, authentication, and rate limiting.\n\n• **Microservices**: An architectural approach where applications are built as a collection of loosely coupled, independently deployable services.\n\n• **Containerization**: The process of packaging applications and their dependencies into lightweight, portable containers using tools like Docker.\n\n• **CI/CD**: Continuous Integration/Continuous Deployment - automated processes for building, testing, and deploying code changes.\n\n• **Load Balancing**: Distributing incoming network traffic across multiple servers to ensure high availability and performance.\n\nWould you like me to explain any of these concepts in more detail?"

/-- src/unnamed/part_006: the canned response for keyword category "project planning". -/
def projectPlanningResponse : String :=
  "**Project Planning & Management**\n\nHere\x27s how I can help with your project planning:\n\n• **Project Scope Definition**: Clearly define objectives, deliverables, and constraints\n• **Timeline Creation**: Break down tasks and create realistic schedules\n• **Resource Allocation**: Identify required team members, tools, and budget\n• **Risk Assessment**: Identify potential challenges and mitigation strategies\n• **Progress Tracking**: Set up monitoring and reporting systems\n\n**Popular Project Management Tools:**\n- Jira for issue tracking\n- Trello for task management\n- Asana for team collaboration\n- Microsoft Project for complex planning\n\nWhat type of project are you planning? I can provide more specific guidance."

/-- src/unnamed/part_006: the canned response for keyword category "learning resources". -/
def learningResourcesResponse : String :=
  "**Learning Resources & Tutorials**\n\nHere are some excellent learning resources:\n\n• **Online Platforms:**\n  - Coursera: University-level courses\n  - Udemy: Practical, project-based learning\n  - edX: Free courses from top universities\n  - Pluralsight: Technology-focused training\n\n• **Documentation & Guides:**\n  - Official documentation for frameworks\n  - GitHub repositories with examples\n  - Stack Overflow for problem-solving\n  - Medium articles for insights\n\n• **Hands-on Practice:**\n  - LeetCode for coding challenges\n  - HackerRank for skill assessment\n  - Kaggle for data science projects\n  - CodePen for frontend experimentation\n\nWhat specific skill or technology would you like to learn more about?"

/-- src/unnamed/part_006 lines 5-107: the keyword table of the mock
responder, in object-literal insertion order (the order `Object.entries`
iterates). -/
def mockResponsesTable : List (String × String) :=
  [("courses", coursesResponse), ("recent jobs", recentJobsResponse),
   ("terms", termsResponse), ("project planning", projectPlanningResponse),
   ("learning resources", learningResourcesResponse)]

/-- src/unnamed/part_006 lines 118-122: the generic fallback templates, each
echoing the original prompt. -/
def genericResponses (prompt : String) : List String :=
  ["Thank you for your question: \"" ++ prompt ++ "\". I\x27m NexAI, your intelligent assistant. I can help you with courses, job opportunities, technical concepts, project planning, and learning resources. What specific area would you like to explore?",
   "I understand you\x27re asking about \"" ++ prompt ++ "\". NexAI is here to assist you with various topics including professional development, technical learning, and career guidance. How can I help you further?",
   "That\x27s an interesting query about \"" ++ prompt ++ "\". NexAI specializes in providing comprehensive assistance across multiple domains. What would you like to know more about?"]

/-- `String.prototype.toLowerCase`, character by character. -/
def jsToLower (s : String) : String := ⟨s.data.map jsLowerChar⟩

/-- Whether the first list is a prefix of the second (Boolean). -/
def isPrefixL : List Char → List Char → Bool
  | [], _ => true
  | _ :: _, [] => false
  | a :: as, b :: bs => a == b && isPrefixL as bs

/-- Whether the needle occurs as a contiguous run inside the haystack:
`String.prototype.includes` on character lists. -/
def containsL (needle : List Char) : List Char → Bool
  | [] => isPrefixL needle []
  | c :: t => isPrefixL needle (c :: t) || containsL needle t

/-- `hay.includes(sub)` for strings. -/
def containsStr (hay sub : String) : Bool := containsL sub.data hay.data

/-- src/unnamed/part_006 lines 1-125 (`getMockResponse`): lowercase the
prompt, return the first keyword category the lowered prompt contains, and
otherwise one pseudo-randomly chosen generic template.  The simulated
1000-3000 ms delay is timing only and is not modelled; the `Math.random`
pick is the explicit `choice` argument. -/
def getMockResponse (prompt : String) (choice : Fin 3) : String :=
  let lowerPrompt := jsToLower prompt
  match mockResponsesTable.find? (fun kv => containsStr lowerPrompt kv.1) with
  | some kv => kv.2
  | none => (genericResponses prompt).get ⟨choice.val, by simp [genericResponses]⟩

lemma getMockResponse_sample :
    getMockResponse "Show me available COURSES please" 0 = coursesResponse := by decide

/-! ## The chat route (src/unnamed/part_003 and src/src/app/api/chat/route.ts) -/

/-- The JSON value bound to `message` by the body destructuring: enough of
the JavaScript value lattice to express the validation checks. -/
inductive JsVal
  | absent
  | jsNull
  | str (s : String)
  | num (q : Rat)
  | boolean (b : Bool)
  | objLike
deriving DecidableEq

/-- JavaScript truthiness of a `JsVal`. -/
def jsTruthy : JsVal → Bool
  | .absent => false
  | .jsNull => false
  | .str s => s != ""
  | .num q => q != 0
  | .boolean b => b
  | .objLike => true

/-- `typeof v === "string"`. -/
def isStringVal : JsVal → Bool
  | .str _ => true
  | _ => false

/-- The string content of a `JsVal` (only consulted after the string check). -/
def strOf : JsVal → String
  | .str s => s
  | _ => ""

/-- The `settings` object of an inbound chat body. -/
structure ChatSettings where
  temperature : Option Rat
  maxTokens : Option Rat
deriving DecidableEq

/-- The destructured inbound body of `POST /api/chat`. -/
structure ChatBody where
  message : JsVal
  conversationId : Option String
  settings : Option ChatSettings
deriving DecidableEq

/-- The environment variables the route reads. -/
structure Env where
  lambdaFunctionUrl : Option String
  lambdaApiKey : Option String
  lambdaTimeoutMs : Option String
deriving DecidableEq

/-- `v || d` on an optional JavaScript number: `undefined` and `0` both fall
back to the default. -/
def jsOrNum (v : Option Rat) (d : Rat) : Rat :=
  match v with
  | none => d
  | some x => if x == 0 then d else x

/-- `Math.min` on two (non-NaN) numbers. -/
def mathMin (a b : Rat) : Rat := if a ≤ b then a else b

/-- `Math.max` on two (non-NaN) numbers. -/
def mathMax (a b : Rat) : Rat := if a ≤ b then b else a

/-- src/unnamed/part_003 line 49 (route.ts line 43): the temperature
forwarded upstream. -/
def clampTemperature (settings : Option ChatSettings) : Rat :=
  mathMax 0 (mathMin 1 (jsOrNum (settings.bind (fun s => s.temperature)) (7/10)))

/-- src/unnamed/part_003 line 50 (route.ts line 44): the token limit
forwarded upstream. -/
def clampMaxTokens (settings : Option ChatSettings) : Rat :=
  mathMax 1 (mathMin 4000 (jsOrNum (settings.bind (fun s => s.maxTokens)) 1000))

/-- The session token generated from the clock:
the template literal of `Date.now()` (src/unnamed/part_003 lines 47 and 85). -/
def sessionToken (now : Nat) : String := "session_" ++ toString now

/-- The settings object of the upstream request body. -/
structure UpstreamSettings where
  temperature : Rat
  maxTokens : Rat
deriving DecidableEq

/-- The JSON body of the upstream fetch (src/unnamed/part_003 lines 45-52). -/
structure UpstreamBody where
  inputText : String
  conversationId : String
  settings : UpstreamSettings
deriving DecidableEq

/-- src/unnamed/part_003 lines 45-52: the body sent to the Lambda endpoint. -/
def buildUpstreamBody (b : ChatBody) (now : Nat) : UpstreamBody :=
  { inputText := jsTrim (strOf b.message)
    conversationId := jsOrStr b.conversationId (sessionToken now)
    settings :=
      { temperature := clampTemperature b.settings
        maxTokens := clampMaxTokens b.settings } }

/-- The `metadata` object of an upstream payload (per the spec it carries a
`sources` list); a present object is always truthy, so `metadata || null`
forwards it unchanged and maps an absent field to null (`none`). -/
structure MetadataVal where
  sources : List String
deriving DecidableEq

/-- A parsed upstream JSON payload.  The three candidate text fields are
optional strings; a missing field and a non-string are both `none`. -/
structure LambdaData where
  outputText : Option String
  response : Option String
  message : Option String
  metadata : Option MetadataVal
deriving DecidableEq

/-- The outcome of the upstream fetch, as observed by the route: either an
HTTP response (whose body may fail to parse as JSON, `none`) or a thrown
exception carrying its `name` — the abort of the client-side timeout throws
a DOMException named "AbortError". -/
inductive FetchOutcome
  | httpResponse (status : Nat) (body : Option LambdaData)
  | thrown (name : String) (msg : String)
deriving DecidableEq

/-- `lambdaData.outputText || lambdaData.response || lambdaData.message`
(src/unnamed/part_003 line 65): the first present, non-empty string wins;
if every candidate is falsy the result is `undefined` (`none`). -/
def firstTruthyStr : List (Option String) → Option String
  | [] => none
  | x :: rest =>
    match x with
    | some s => if s == "" then firstTruthyStr rest else some s
    | none => firstTruthyStr rest

/-- The observable calls the handler makes, in order. -/
inductive CallEvent
  | fetchUpstream (url : String) (body : UpstreamBody)
  | mockResponder (prompt : String)
  | cacheRead (key : String)
  | cacheWrite (key : String)
deriving DecidableEq

/-- `Date#toISOString` of the request clock.  Its exact text is irrelevant
to every claim; only that it is a function of the clock. -/
def isoTimestamp (now : Nat) : String := toString now

/-- The body of a chat success envelope (src/unnamed/part_003 lines 64-70
and 83-89).  `none` stands for a JSON field that is absent or null. -/
structure ChatResponseOut where
  response : Option String
  conversationId : Option String
  timestamp : String
  source : String
  metadata : Option MetadataVal
  error : Option String
deriving DecidableEq

/-- A JSON response body of the route: either a bare error object or a chat
envelope. -/
inductive ApiBody
  | errorOnly (error : String)
  | chat (r : ChatResponseOut)
deriving DecidableEq

/-- A `NextResponse.json` result: HTTP status plus JSON body. -/
structure ApiResponse where
  status : Nat
  body : ApiBody
deriving DecidableEq

/-- src/unnamed/part_003 lines 80-89 (route.ts lines 74-83): the mock
fallback result appended to the events so far. -/
def mockResult (b : ChatBody) (message : String) (isTimeout : Bool)
    (choice : Fin 3) (now : Nat) (evs : List CallEvent) :
    ApiResponse × List CallEvent :=
  ({ status := 200
     body := .chat
       { response := some (getMockResponse message choice)
         conversationId := some (jsOrStr b.conversationId (sessionToken now))
         timestamp := isoTimestamp now
         source := "mock"
         metadata := none
         error := some (if isTimeout then "Lambda timeout" else "Lambda error") } },
   evs ++ [CallEvent.mockResponder message])

/-- src/unnamed/part_003 lines 9-98, the `POST /api/chat` handler
(src/src/app/api/chat/route.ts lines 4-92 is the same handler except that
its lines 29-31 hard-code a 30000 ms timeout in place of the configurable
one).  `reqBody` is `none` when `request.json()` rejects or destructuring
throws, which the outer catch turns into a 500; the fetch outcome, the mock
responder's pseudo-random pick and the clock are oracle arguments.  The
returned event list records the upstream and mock calls the handler makes:
the handler contains no cache call. -/
def POST (env : Env) (reqBody : Option ChatBody) (fetch : FetchOutcome)
    (choice : Fin 3) (now : Nat) : ApiResponse × List CallEvent :=
  match reqBody with
  | none => ({ status := 500, body := .errorOnly "Internal server error" }, [])
  | some b =>
    if !jsTruthy b.message || !isStringVal b.message
        || (jsTrimList (strOf b.message).data).length == 0 then
      ({ status := 400
         body := .errorOnly "Message is required and must be a non-empty string" }, [])
    else if (strOf b.message).data.length > 10000 then
      ({ status := 400
         body := .errorOnly "Message is too long (max 10,000 characters)" }, [])
    else
      let message := strOf b.message
      if !jsTruthyOptStr env.lambdaFunctionUrl then
        mockResult b message false choice now []
      else
        let fetchEv := CallEvent.fetchUpstream (env.lambdaFunctionUrl.getD "")
          (buildUpstreamBody b now)
        match fetch with
        | .thrown name _ =>
          mockResult b message (name == "AbortError") choice now [fetchEv]
        | .httpResponse status data =>
          if !(200 ≤ status && status < 300) then
            mockResult b message false choice now [fetchEv]
          else
            match data with
            | none => mockResult b message false choice now [fetchEv]
            | some lambdaData =>
              ({ status := 200
                 body := .chat
                   { response := firstTruthyStr
                       [lambdaData.outputText, lambdaData.response, lambdaData.message]
                     conversationId := b.conversationId
                     timestamp := isoTimestamp now
                     source := "lambda-bedrock-agent"
                     metadata := lambdaData.metadata
                     error := none } }, [fetchEv])

/-- Decimal digit reading for the timeout environment variable. -/
def decDigitsAux : List Char → Nat → Option Nat
  | [], acc => some acc
  | c :: rest, acc =>
    if 48 ≤ c.toNat ∧ c.toNat ≤ 57 then decDigitsAux rest (acc * 10 + (c.toNat - 48))
    else none

/-- `Number(s)` restricted to the shapes the timeout variable takes: the
empty string reads as 0, a nonnegative decimal integer reads as its value,
and anything else is NaN (`none`).  (Other numeric literal forms are out of
scope of the claims.) -/
def jsNumberOfString (s : String) : Option Rat :=
  match s.data with
  | [] => some 0
  | l => (decDigitsAux l 0).map (fun n => (n : Rat))

/-- src/unnamed/part_003 line 36: the client-side abort timeout in
milliseconds, `Number(process.env.LAMBDA_TIMEOUT_MS || "55000")`. -/
def lambdaTimeoutMsOf (env : Env) : Option Rat :=
  jsNumberOfString (jsOrStr env.lambdaTimeoutMs "55000")

/-! ## Derived predicates and helper lemmas -/

/-- The chat body of a route result, when the result is a chat envelope. -/
def chatBodyOf (r : ApiResponse) : Option ChatResponseOut :=
  match r.body with
  | .chat out => some out
  | _ => none

/-- Whether an event is a mock-responder invocation. -/
def isMockCall : CallEvent → Bool
  | .mockResponder _ => true
  | _ => false

/-- Whether an event is a cache read or write. -/
def isCacheCall : CallEvent → Bool
  | .cacheRead _ => true
  | .cacheWrite _ => true
  | _ => false

/-- Whether an event is the upstream fetch. -/
def isFetchCall : CallEvent → Bool
  | .fetchUpstream _ _ => true
  | _ => false

/-- The message passes both validation checks of the handler: the mirror of
the two `if` guards of src/unnamed/part_003 lines 14-26. -/
def validMessage (m : JsVal) : Prop :=
  (!jsTruthy m || !isStringVal m || (jsTrimList (strOf m).data).length == 0) = false
  ∧ (strOf m).data.length ≤ 10000

instance (m : JsVal) : Decidable (validMessage m) := by
  unfold validMessage; infer_instance

/-- The upstream attempt comes back as anything but a parsed 2xx payload:
unconfigured endpoint, thrown fetch (abort included), non-2xx status, or an
unparseable body. -/
def upstreamFails (env : Env) (f : FetchOutcome) : Bool :=
  !jsTruthyOptStr env.lambdaFunctionUrl ||
    (match f with
     | .thrown _ _ => true
     | .httpResponse status data =>
       !(200 ≤ status && status < 300) || data.isNone)

/-- The upstream attempt was aborted by the client-side timeout: the fetch
was reached and threw the AbortError of the abort controller. -/
def upstreamTimedOut (env : Env) (f : FetchOutcome) : Bool :=
  jsTruthyOptStr env.lambdaFunctionUrl &&
    (match f with
     | .thrown name _ => name == "AbortError"
     | _ => false)

theorem POST_validated_shape (env : Env) (b : ChatBody) (f : FetchOutcome)
    (choice : Fin 3) (now : Nat) (hv : validMessage b.message)
    (hf : upstreamFails env f = true) :
    POST env (some b) f choice now =
      mockResult b (strOf b.message) (upstreamTimedOut env f) choice now
        (if jsTruthyOptStr env.lambdaFunctionUrl then
          [CallEvent.fetchUpstream (env.lambdaFunctionUrl.getD "")
            (buildUpstreamBody b now)]
         else []) := by
  obtain ⟨h1, h2⟩ := hv
  rw [POST]
  rw [if_neg (by simp [h1]), if_neg (by omega)]
  by_cases hurl : jsTruthyOptStr env.lambdaFunctionUrl
  · rw [if_neg (by simp [hurl])]
    rw [if_pos hurl]
    cases f with
    | thrown name msg =>
      simp only [upstreamTimedOut, hurl, Bool.true_and]
    | httpResponse status data =>
      simp only [upstreamFails, hurl, Bool.not_true, Bool.false_or] at hf
      simp only [upstreamTimedOut, hurl, Bool.true_and]
      cases data with
      | none =>
        cases hok : (200 ≤ status && status < 300) with
        | false => rw [if_pos (by simp [hok])]
        | true => rw [if_neg (by simp [hok])]
      | some ld =>
        simp only [Option.isNone_some, Bool.or_false] at hf
        rw [if_pos (by simp_all)]
  · rw [if_pos (by simpa using hurl), if_neg hurl]
    simp only [upstreamTimedOut, Bool.not_eq_true] at hurl ⊢
    rw [hurl, Bool.false_and]

theorem POST_success_shape (env : Env) (b : ChatBody) (status : Nat)
    (ld : LambdaData) (choice : Fin 3) (now : Nat) (hv : validMessage b.message)
    (hurl : jsTruthyOptStr env.lambdaFunctionUrl = true)
    (h2xx : 200 ≤ status ∧ status < 300) :
    POST env (some b) (.httpResponse status (some ld)) choice now =
      ({ status := 200
         body := .chat
           { response := firstTruthyStr [ld.outputText, ld.response, ld.message]
             conversationId := b.conversationId
             timestamp := isoTimestamp now
             source := "lambda-bedrock-agent"
             metadata := ld.metadata
             error := none } },
       [CallEvent.fetchUpstream (env.lambdaFunctionUrl.getD "")
         (buildUpstreamBody b now)]) := by
  obtain ⟨h1, hlen⟩ := hv
  rw [POST]
  rw [if_neg (by simp [h1]), if_neg (by omega), if_neg (by simp [hurl])]
  dsimp only
  rw [if_neg (by simp [h2xx.1, h2xx.2])]

/-- Concrete fixtures reused by witnesses and counterexamples. -/
def envUnconfigured : Env :=
  { lambdaFunctionUrl := none, lambdaApiKey := none, lambdaTimeoutMs := none }

/-- A configured environment fixture. -/
def envConfigured : Env :=
  { lambdaFunctionUrl := some "https://lambda.example/fn"
    lambdaApiKey := some "k", lambdaTimeoutMs := none }

/-- A simple valid body fixture without a conversation id. -/
def simpleBody : ChatBody :=
  { message := .str "hello", conversationId := none, settings := none }

/-- A simple successful upstream payload fixture. -/
def okPayload : LambdaData :=
  { outputText := some "ANSWER", response := none, message := none, metadata := none }

lemma le_mathMax_left (a b : Rat) : a ≤ mathMax a b := by
  unfold mathMax; split
  · assumption
  · exact le_refl a

lemma mathMax_le (a b c : Rat) (h1 : a ≤ c) (h2 : b ≤ c) : mathMax a b ≤ c := by
  unfold mathMax; split
  · exact h2
  · exact h1

lemma mathMin_le_left (a b : Rat) : mathMin a b ≤ a := by
  unfold mathMin; split
  · exact le_refl a
  · exact le_of_lt (lt_of_not_le (by assumption))

/-- Claim C7: settings are clamped before being forwarded — the forwarded
temperature always lies in the interval from 0 to 1 and the forwarded token
limit in the interval from 1 to 4000; a temperature of 5 is forwarded as 1
and one of -1 as 0; and a message that passes validation is answered with
status 200 whatever the settings hold, so out-of-range settings never cause
a rejection. -/
theorem C7_settings_clamped_not_rejected :
    (∀ s : Option ChatSettings,
      0 ≤ clampTemperature s ∧ clampTemperature s ≤ 1 ∧
      1 ≤ clampMaxTokens s ∧ clampMaxTokens s ≤ 4000) ∧
    (∀ (b : ChatBody) (now : Nat),
      (buildUpstreamBody b now).settings.temperature = clampTemperature b.settings ∧
      (buildUpstreamBody b now).settings.maxTokens = clampMaxTokens b.settings) ∧
    (∀ mt, clampTemperature (some { temperature := some 5, maxTokens := mt }) = 1) ∧
    (∀ mt, clampTemperature (some { temperature := some (-1), maxTokens := mt }) = 0) ∧
    (∀ env b f choice now, validMessage b.message →
      (POST env (some b) f choice now).1.status = 200) := by
  refine ⟨?_, ?_, ?_, ?_, ?_⟩
  · intro s
    refine ⟨le_mathMax_left _ _, mathMax_le _ _ _ (by norm_num) (mathMin_le_left _ _),
      le_mathMax_left _ _, mathMax_le _ _ _ (by norm_num) (mathMin_le_left _ _)⟩
  · intro b now; exact ⟨rfl, rfl⟩
  · intro mt
    simp only [clampTemperature, jsOrNum, Option.bind_some]
    norm_num [mathMin, mathMax]
  · intro mt
    simp only [clampTemperature, jsOrNum, Option.bind_some]
    norm_num [mathMin, mathMax]
  · intro env b f choice now hv
    by_cases hf : upstreamFails env f = true
    · rw [POST_validated_shape env b f choice now hv hf]
      rfl
    · rw [Bool.not_eq_true] at hf
      cases f with
      | thrown name msg => simp [upstreamFails] at hf
      | httpResponse status data =>
        cases data with
        | none => simp [upstreamFails] at hf
        | some ld =>
          simp only [upstreamFails, Option.isNone_some, Bool.or_false,
            Bool.or_eq_false_iff, Bool.not_eq_false, Bool.and_eq_true,
            decide_eq_true_eq] at hf
          rw [POST_success_shape env b status ld choice now hv (by simpa using hf.1)
            (by simpa using hf.2)]

/-- Claim C7 witness: the theorem applied at a temperature of 5 and at a
concrete valid request. -/
theorem C7_witness :
    clampTemperature (some { temperature := some 5, maxTokens := none }) = 1 ∧
    (POST envUnconfigured (some simpleBody) (.thrown "Error" "boom") 0 0).1.status = 200 :=
  ⟨C7_settings_clamped_not_rejected.2.2.1 none,
   C7_settings_clamped_not_rejected.2.2.2.2 envUnconfigured simpleBody
     (.thrown "Error" "boom") 0 0 (by decide)⟩

/-- Claim C10: a temperature supplied as exactly 0 is falsy, so it is
forwarded as the default 0.7 rather than 0, and a maxTokens of 0 is
forwarded as the default 1000 rather than the lower clamp bound 1 — in both
cases identically to the settings being absent altogether. -/
theorem C10_zero_settings_read_as_absent :
    (∀ mt : Option Rat,
      clampTemperature (some { temperature := some 0, maxTokens := mt })
        = clampTemperature none ∧
      clampTemperature (some { temperature := some 0, maxTokens := mt }) = 7/10) ∧
    (∀ tv : Option Rat,
      clampMaxTokens (some { temperature := tv, maxTokens := some 0 })
        = clampMaxTokens none ∧
      clampMaxTokens (some { temperature := tv, maxTokens := some 0 }) = 1000) ∧
    (∀ (b : ChatBody) (now : Nat),
      (buildUpstreamBody b now).settings.temperature = clampTemperature b.settings ∧
      (buildUpstreamBody b now).settings.maxTokens = clampMaxTokens b.settings) := by
  refine ⟨?_, ?_, ?_⟩
  · intro mt
    constructor
    · simp [clampTemperature, jsOrNum]
    · simp only [clampTemperature, jsOrNum, Option.bind_some]
      norm_num [mathMin, mathMax]
  · intro tv
    constructor
    · simp [clampMaxTokens, jsOrNum]
    · simp only [clampMaxTokens, jsOrNum, Option.bind_some]
      norm_num [mathMin, mathMax]
  · intro b now; exact ⟨rfl, rfl⟩

/-- Claim C8: the upstream call is bounded by one client-side abort timeout
whose default is 55000 ms (the LAMBDA_TIMEOUT_MS variable unset or empty)
and which is configurable through that variable; when the abort fires the
handler proceeds to the mock fallback tagged "Lambda timeout".  This holds
of the route version src/unnamed/part_003; the sibling
src/src/app/api/chat/route.ts hard-codes 30000 ms instead. -/
theorem C8_timeout_default_configurable_abort_falls_back :
    (∀ env : Env, env.lambdaTimeoutMs = none ∨ env.lambdaTimeoutMs = some "" →
      lambdaTimeoutMsOf env = some 55000) ∧
    (∀ (env : Env) (s : String), env.lambdaTimeoutMs = some s → s ≠ "" →
      lambdaTimeoutMsOf env = jsNumberOfString s) ∧
    (∀ env b choice now msg, validMessage b.message →
      jsTruthyOptStr env.lambdaFunctionUrl = true →
      (chatBodyOf (POST env (some b) (.thrown "AbortError" msg) choice now).1).map
          (fun o => (o.source, o.error))
        = some ("mock", some "Lambda timeout")) := by
  refine ⟨?_, ?_, ?_⟩
  · intro env h
    rcases h with h | h <;> rw [lambdaTimeoutMsOf, h] <;> decide
  · intro env s h hne
    rw [lambdaTimeoutMsOf, h]
    simp [jsOrStr, hne]
  · intro env b choice now msg hv hurl
    rw [POST_validated_shape env b (.thrown "AbortError" msg) choice now hv
      (by simp [upstreamFails])]
    simp [mockResult, chatBodyOf, upstreamTimedOut, hurl]

/-- Claim C8 witness: the default and a configured value of the timeout, and
a concrete aborted request falling back to the mock with the timeout tag. -/
theorem C8_witness :
    lambdaTimeoutMsOf envUnconfigured = some 55000 ∧
    lambdaTimeoutMsOf
        { lambdaFunctionUrl := none, lambdaApiKey := none,
          lambdaTimeoutMs := some "20000" }
      = jsNumberOfString "20000" ∧
    (chatBodyOf (POST envConfigured (some simpleBody)
        (.thrown "AbortError" "The operation was aborted") 0 0).1).map
        (fun o => (o.source, o.error))
      = some ("mock", some "Lambda timeout") :=
  ⟨C8_timeout_default_configurable_abort_falls_back.1 envUnconfigured (Or.inl rfl),
   C8_timeout_default_configurable_abort_falls_back.2.1 _ "20000" rfl (by decide),
   C8_timeout_default_configurable_abort_falls_back.2.2 envConfigured simpleBody 0 0
     "The operation was aborted" (by decide) (by decide)⟩

lemma find?_filter_ne (l : List (String × String × Nat)) (key k2 : String)
    (h : ¬k2 = key) :
    (l.filter (fun e => !(e.1 == key))).find? (fun e => e.1 == k2)
      = l.find? (fun e => e.1 == k2) := by
  induction l with
  | nil => rfl
  | cons e t ih =>
    cases hek : (e.1 == key) with
    | true =>
      have he2 : (e.1 == k2) = false := by
        rw [eq_of_beq hek]
        exact beq_eq_false_iff_ne.mpr fun hh => h hh.symm
      rw [List.filter_cons_of_neg (by simp [hek]), ih,
        @List.find?_cons_of_neg _ (fun x => x.1 == k2) e t (by simp [he2])]
    | false =>
      rw [List.filter_cons_of_pos (by simp [hek])]
      cases he2 : (e.1 == k2) with
      | true =>
        rw [@List.find?_cons_of_pos _ (fun x => x.1 == k2) e
            (List.filter (fun x => !(x.1 == key)) t) he2,
          @List.find?_cons_of_pos _ (fun x => x.1 == k2) e t he2]
      | false =>
        rw [@List.find?_cons_of_neg _ (fun x => x.1 == k2) e
            (List.filter (fun x => !(x.1 == key)) t) (by simp [he2]),
          @List.find?_cons_of_neg _ (fun x => x.1 == k2) e t (by simp [he2]), ih]

/-- Claim C9: `getCache` never surfaces a failure — an unavailable client or
a throwing GET produce a `none` (cache-miss) result; `setCache` with a
working client stores the value under the key with an expiry 21600 seconds
after the time of the call, overwriting any prior entry for that key and
leaving every other key unchanged, while an unavailable client or a
throwing SETEX leave the store untouched. -/
theorem C9_cache_failure_and_ttl_semantics :
    (∀ op now st key, getCache false op now st key = none) ∧
    (∀ avail now st key msg, getCache avail (.failed msg) now st key = none) ∧
    (∀ url token initOk,
      jsTruthyOptStr url = false ∨ jsTruthyOptStr token = false ∨ initOk = false →
      clientAvailable url token initOk = false) ∧
    (∀ now st key value,
      (setCache true .ok now st key value).store.find? (fun e => e.1 == key)
        = some (key, value, now + 21600)) ∧
    (∀ now st key value k2, ¬k2 = key →
      (setCache true .ok now st key value).store.find? (fun e => e.1 == k2)
        = st.store.find? (fun e => e.1 == k2)) ∧
    (∀ op now st key value, setCache false op now st key value = st) ∧
    (∀ avail now st key value msg, setCache avail (.failed msg) now st key value = st) := by
  refine ⟨?_, ?_, ?_, ?_, ?_, ?_, ?_⟩
  · intro op now st key; rfl
  · intro avail now st key msg
    cases avail <;> rfl
  · intro url token initOk h
    rcases h with h | h | h <;> simp [clientAvailable, h]
  · intro now st key value
    simp [setCache, List.find?]
  · intro now st key value k2 h
    have hk : (key == k2) = false :=
      beq_eq_false_iff_ne.mpr fun hh => h hh.symm
    show ((key, value, now + 21600) ::
        st.store.filter (fun e => !(e.1 == key))).find? (fun e => e.1 == k2)
      = st.store.find? (fun e => e.1 == k2)
    rw [List.find?_cons_of_neg _ (by simp [hk])]
    exact find?_filter_ne st.store key k2 h
  · intro op now st key value; rfl
  · intro avail now st key value msg
    cases avail <;> rfl

/-- Claim C9 witness: the theorem applied to a concrete unavailable client,
a concrete failed operation, and a concrete overwrite. -/
theorem C9_witness :
    getCache false .ok 0 ⟨[("k", "old", 10)]⟩ "k" = none ∧
    getCache true (.failed "ECONNREFUSED") 0 ⟨[("k", "old", 10)]⟩ "k" = none ∧
    clientAvailable none (some "t") true = false ∧
    (setCache true .ok 100 ⟨[("k", "old", 10)]⟩ "k" "new").store.find?
        (fun e => e.1 == "k") = some ("k", "new", 21700) ∧
    (setCache true .ok 100 ⟨[("other", "keep", 10)]⟩ "k" "new").store.find?
        (fun e => e.1 == "other") = some ("other", "keep", 10) ∧
    setCache true (.failed "ETIMEDOUT") 100 ⟨[("k", "old", 10)]⟩ "k" "new"
      = ⟨[("k", "old", 10)]⟩ :=
  ⟨C9_cache_failure_and_ttl_semantics.1 .ok 0 ⟨[("k", "old", 10)]⟩ "k",
   C9_cache_failure_and_ttl_semantics.2.1 true 0 ⟨[("k", "old", 10)]⟩ "k" "ECONNREFUSED",
   C9_cache_failure_and_ttl_semantics.2.2.1 none (some "t") true (Or.inl rfl),
   C9_cache_failure_and_ttl_semantics.2.2.2.1 100 ⟨[("k", "old", 10)]⟩ "k" "new",
   by
    have := C9_cache_failure_and_ttl_semantics.2.2.2.2.1 100 ⟨[("other", "keep", 10)]⟩
      "k" "new" "other" (by decide)
    rw [this]; decide,
   C9_cache_failure_and_ttl_semantics.2.2.2.2.2.2 true 100 ⟨[("k", "old", 10)]⟩
     "k" "new" "ETIMEDOUT"⟩

theorem POST_invalid_shape (env : Env) (b : ChatBody) (f : FetchOutcome)
    (choice : Fin 3) (now : Nat)
    (h1 : (!jsTruthy b.message || !isStringVal b.message
        || (jsTrimList (strOf b.message).data).length == 0) = true) :
    POST env (some b) f choice now =
      ({ status := 400
         body := .errorOnly "Message is required and must be a non-empty string" }, []) := by
  rw [POST, if_pos h1]

theorem POST_toolong_shape (env : Env) (b : ChatBody) (f : FetchOutcome)
    (choice : Fin 3) (now : Nat)
    (h1 : (!jsTruthy b.message || !isStringVal b.message
        || (jsTrimList (strOf b.message).data).length == 0) = false)
    (h2 : (strOf b.message).data.length > 10000) :
    POST env (some b) f choice now =
      ({ status := 400
         body := .errorOnly "Message is too long (max 10,000 characters)" }, []) := by
  rw [POST, if_neg (by simp [h1]), if_pos h2]

theorem upstream_ok_of_not_fails (env : Env) (f : FetchOutcome)
    (hf : ¬upstreamFails env f = true) :
    jsTruthyOptStr env.lambdaFunctionUrl = true ∧
    ∃ status ld, f = .httpResponse status (some ld) ∧ 200 ≤ status ∧ status < 300 := by
  rw [Bool.not_eq_true] at hf
  cases f with
  | thrown name msg => simp [upstreamFails] at hf
  | httpResponse status data =>
    cases data with
    | none => simp [upstreamFails] at hf
    | some ld =>
      simp only [upstreamFails, Option.isNone_some, Bool.or_false,
        Bool.or_eq_false_iff] at hf
      exact ⟨by simpa using hf.1, status, ld, rfl, by simpa using hf.2⟩

/-- Claim C5 (amended): the chat handler never consults the response cache —
no request, on any path, produces a cache read or a cache write; the cache
module exists but is not wired into the route. -/
theorem C5_no_cache_calls (env : Env) (reqBody : Option ChatBody)
    (f : FetchOutcome) (choice : Fin 3) (now : Nat) :
    (POST env reqBody f choice now).2.countP isCacheCall = 0 := by
  cases reqBody with
  | none => rfl
  | some b =>
    by_cases hv : validMessage b.message
    · by_cases hf : upstreamFails env f = true
      · rw [POST_validated_shape env b f choice now hv hf]
        by_cases hurl : jsTruthyOptStr env.lambdaFunctionUrl = true
        · rw [if_pos hurl]; rfl
        · rw [if_neg hurl]; rfl
      · obtain ⟨hurl, status, ld, rfl, h2xx⟩ := upstream_ok_of_not_fails env f hf
        rw [POST_success_shape env b status ld choice now hv hurl h2xx]
        rfl
    · rw [validMessage, not_and_or] at hv
      by_cases h1 : (!jsTruthy b.message || !isStringVal b.message
          || (jsTrimList (strOf b.message).data).length == 0) = true
      · rw [POST_invalid_shape env b f choice now h1]; rfl
      · have h1f : (!jsTruthy b.message || !isStringVal b.message
            || (jsTrimList (strOf b.message).data).length == 0) = false := by
          simpa using h1
        have h2 : (strOf b.message).data.length > 10000 := by
          rcases hv with hv | hv
          · exact absurd h1f hv
          · omega
        rw [POST_toolong_shape env b f choice now h1f h2]; rfl

/-- Claim C5 counterexample: on a concrete validated request with a
successful upstream response, the handler performs its single upstream fetch
with zero cache reads before it and zero cache writes after it — so the
claimed getCache-before-fetch and setCache-after-success calls do not
happen. -/
theorem C5_counterexample :
    (POST envConfigured (some simpleBody) (.httpResponse 200 (some okPayload)) 0 0).2.countP
        isFetchCall = 1 ∧
    (POST envConfigured (some simpleBody) (.httpResponse 200 (some okPayload)) 0 0).2.countP
        isCacheCall = 0 := by
  constructor <;> rfl

/-- Claim C2 (amended): when the endpoint is configured and the upstream
call returns a 2xx status with a parseable JSON payload, the handler
responds 200 with `source` equal to "lambda-bedrock-agent" (not "upstream")
and a `response` equal, verbatim, to the first truthy of the payload's
outputText, response and message fields in that priority, forwarding the
payload's metadata unchanged. -/
theorem C2_upstream_success_envelope (env : Env) (b : ChatBody) (status : Nat)
    (ld : LambdaData) (choice : Fin 3) (now : Nat)
    (hv : validMessage b.message)
    (hurl : jsTruthyOptStr env.lambdaFunctionUrl = true)
    (h2xx : 200 ≤ status ∧ status < 300) :
    (POST env (some b) (.httpResponse status (some ld)) choice now).1.status = 200 ∧
    chatBodyOf (POST env (some b) (.httpResponse status (some ld)) choice now).1 =
      some
        { response := firstTruthyStr [ld.outputText, ld.response, ld.message]
          conversationId := b.conversationId
          timestamp := isoTimestamp now
          source := "lambda-bedrock-agent"
          metadata := ld.metadata
          error := none } := by
  rw [POST_success_shape env b status ld choice now hv hurl h2xx]
  exact ⟨rfl, rfl⟩

/-- Claim C2 witness: the theorem applied at a concrete successful upstream
exchange. -/
theorem C2_witness :
    validMessage (JsVal.str "hello") ∧
    chatBodyOf (POST envConfigured (some simpleBody)
        (.httpResponse 200 (some okPayload)) 0 0).1 =
      some
        { response := some "ANSWER", conversationId := none
          timestamp := isoTimestamp 0, source := "lambda-bedrock-agent"
          metadata := none, error := none } := by
  refine ⟨by decide, ?_⟩
  exact (C2_upstream_success_envelope envConfigured simpleBody 200 okPayload 0 0
    (by decide) (by decide) (by omega)).2

/-- Claim C2 counterexample: on a concrete successful upstream exchange the
returned `source` is the literal "lambda-bedrock-agent", not "upstream" as
the claim states. -/
theorem C2_counterexample :
    (chatBodyOf (POST envConfigured (some simpleBody)
        (.httpResponse 200 (some okPayload)) 0 0).1).map (fun o => o.source)
      = some "lambda-bedrock-agent" ∧
    (chatBodyOf (POST envConfigured (some simpleBody)
        (.httpResponse 200 (some okPayload)) 0 0).1).map (fun o => o.source)
       ≠ some "upstream" := by
  exact ⟨rfl, by decide⟩

/-- Claim C6 (amended): on the mock-fallback path the returned
conversationId is the request's value defaulted to a freshly generated
timestamp-based session token when absent or empty; on the upstream-success
path the handler echoes the request's conversationId as-is, so it stays
absent when the request omitted it. -/
theorem C6_conversation_id_by_path (env : Env) (b : ChatBody) (f : FetchOutcome)
    (choice : Fin 3) (now : Nat) (hv : validMessage b.message) :
    (upstreamFails env f = true →
      (chatBodyOf (POST env (some b) f choice now).1).map (fun o => o.conversationId)
        = some (some (jsOrStr b.conversationId (sessionToken now)))) ∧
    (¬upstreamFails env f = true →
      (chatBodyOf (POST env (some b) f choice now).1).map (fun o => o.conversationId)
        = some b.conversationId) := by
  constructor
  · intro hf
    rw [POST_validated_shape env b f choice now hv hf]
    rfl
  · intro hf
    obtain ⟨hurl, status, ld, rfl, h2xx⟩ := upstream_ok_of_not_fails env f hf
    rw [POST_success_shape env b status ld choice now hv hurl h2xx]
    rfl

/-- Claim C6 witness: the theorem applied on the mock path (token generated
from the clock) and on the success path (request value echoed). -/
theorem C6_witness :
    (chatBodyOf (POST envUnconfigured (some simpleBody) (.thrown "Error" "x") 0 42).1).map
        (fun o => o.conversationId) = some (some (jsOrStr none (sessionToken 42))) ∧
    (chatBodyOf (POST envConfigured (some simpleBody)
        (.httpResponse 200 (some okPayload)) 0 42).1).map (fun o => o.conversationId)
      = some none := by
  constructor
  · exact (C6_conversation_id_by_path envUnconfigured simpleBody (.thrown "Error" "x")
      0 42 (by decide)).1 (by decide)
  · exact (C6_conversation_id_by_path envConfigured simpleBody
      (.httpResponse 200 (some okPayload)) 0 42 (by decide)).2 (by decide)

/-- Claim C6 counterexample: a concrete upstream-success response to a
request without a conversationId carries no conversationId at all — not the
freshly generated session token the claim promises on that path. -/
theorem C6_counterexample :
    (chatBodyOf (POST envConfigured (some simpleBody)
        (.httpResponse 200 (some okPayload)) 0 77).1).map (fun o => o.conversationId)
      = some none ∧
    some (none : Option String) ≠ some (some (sessionToken 77)) := by
  exact ⟨rfl, by decide⟩

lemma append3_ne_empty (a b c : String) (ha : 0 < a.length) : a ++ b ++ c ≠ "" := by
  intro h
  have hlen := congrArg String.length h
  rw [String.length_append, String.length_append] at hlen
  have h0 : ("" : String).length = 0 := rfl
  omega

lemma getMockResponse_ne_empty (prompt : String) (choice : Fin 3) :
    getMockResponse prompt choice ≠ "" := by
  rw [getMockResponse]
  cases hfind : (mockResponsesTable.find?
      (fun kv => containsStr (jsToLower prompt) kv.1)) with
  | some kv =>
    have hmem := List.mem_of_find?_eq_some hfind
    simp only [mockResponsesTable, List.mem_cons, List.not_mem_nil, or_false] at hmem
    show kv.2 ≠ ""
    rcases hmem with h | h | h | h | h <;> rw [h] <;> decide
  | none =>
    rcases choice with ⟨cv, hlt⟩
    interval_cases cv <;>
      exact append3_ne_empty _ _ _ (by decide)

/-- Claim C1: on every validated request whose upstream attempt fails for
any reason — unconfigured endpoint URL, thrown fetch (abort included),
non-2xx status, or an unparseable 2xx body — the handler invokes the mock
responder exactly once and returns a 200 response whose response string is
the non-empty mock text, whose source is "mock", and whose error tag is
"Lambda timeout" exactly when the failure was the client-side abort and
"Lambda error" for every other failure. -/
theorem C1_upstream_failure_mock_fallback (env : Env) (b : ChatBody)
    (f : FetchOutcome) (choice : Fin 3) (now : Nat)
    (hv : validMessage b.message)
    (hf : upstreamFails env f = true) :
    (POST env (some b) f choice now).1.status = 200 ∧
    chatBodyOf (POST env (some b) f choice now).1 =
      some
        { response := some (getMockResponse (strOf b.message) choice)
          conversationId := some (jsOrStr b.conversationId (sessionToken now))
          timestamp := isoTimestamp now
          source := "mock"
          metadata := none
          error := some (if upstreamTimedOut env f
            then "Lambda timeout" else "Lambda error") } ∧
    getMockResponse (strOf b.message) choice ≠ "" ∧
    (POST env (some b) f choice now).2.countP isMockCall = 1 := by
  rw [POST_validated_shape env b f choice now hv hf]
  refine ⟨rfl, rfl, getMockResponse_ne_empty _ _, ?_⟩
  by_cases hurl : jsTruthyOptStr env.lambdaFunctionUrl = true
  · rw [if_pos hurl]; rfl
  · rw [if_neg hurl]; rfl

/-- Claim C1 witness: the theorem applied at a concrete request with an
unconfigured upstream. -/
theorem C1_witness :
    (POST envUnconfigured (some simpleBody) (.thrown "Error" "no url") 0 5).1.status = 200 ∧
    chatBodyOf (POST envUnconfigured (some simpleBody) (.thrown "Error" "no url") 0 5).1 =
      some
        { response := some (getMockResponse "hello" 0)
          conversationId := some (jsOrStr none (sessionToken 5))
          timestamp := isoTimestamp 5, source := "mock", metadata := none
          error := some "Lambda error" } ∧
    getMockResponse "hello" (0 : Fin 3) ≠ "" ∧
    (POST envUnconfigured (some simpleBody) (.thrown "Error" "no url") 0 5).2.countP
      isMockCall = 1 := by
  have h := C1_upstream_failure_mock_fallback envUnconfigured simpleBody
    (.thrown "Error" "no url") 0 5 (by decide) (by decide)
  exact ⟨h.1, h.2.1, h.2.2.1, h.2.2.2⟩

/-- Claim C3 (amended): every body whose message is absent, not a string, or
empty after trimming is answered 400 with the required-message error body
and no upstream, mock or cache call made; every message that passes the
non-empty check and whose length exceeds 10000 characters is answered 400
with the error body containing "too long" and no upstream, mock or cache
call made.  (An over-length message that trims to empty falls under the
first rule, so its 400 body is the required-message error instead.) -/
theorem C3_validation_rejects_without_calls :
    (∀ env b f choice now,
      (!jsTruthy b.message || !isStringVal b.message
          || (jsTrimList (strOf b.message).data).length == 0) = true →
      POST env (some b) f choice now =
        ({ status := 400
           body := .errorOnly "Message is required and must be a non-empty string" }, [])) ∧
    (∀ env b f choice now,
      (!jsTruthy b.message || !isStringVal b.message
          || (jsTrimList (strOf b.message).data).length == 0) = false →
      (strOf b.message).data.length > 10000 →
      POST env (some b) f choice now =
        ({ status := 400
           body := .errorOnly "Message is too long (max 10,000 characters)" }, []) ∧
      containsStr "Message is too long (max 10,000 characters)" "too long" = true) := by
  constructor
  · intro env b f choice now h1
    exact POST_invalid_shape env b f choice now h1
  · intro env b f choice now h1 h2
    exact ⟨POST_toolong_shape env b f choice now h1 h2, by decide⟩

/-- A body whose message is 10001 space characters. -/
def spacesBody : ChatBody :=
  { message := .str (String.mk (List.replicate 10001 ' '))
    conversationId := none, settings := none }

/-- A body whose message is 10001 copies of the letter a. -/
def longABody : ChatBody :=
  { message := .str (String.mk (List.replicate 10001 'a'))
    conversationId := none, settings := none }

lemma dropWhile_space_replicate (n : Nat) :
    List.dropWhile isJsSpace (List.replicate n ' ') = [] := by
  induction n with
  | zero => rfl
  | succ m ih => rw [List.replicate_succ, List.dropWhile_cons, if_pos (by decide)]; exact ih

lemma dropWhile_space_replicate_a (n : Nat) :
    List.dropWhile isJsSpace (List.replicate (n + 1) 'a') = List.replicate (n + 1) 'a' := by
  rw [List.replicate_succ, List.dropWhile_cons, if_neg (by decide), ← List.replicate_succ]

lemma jsTrimList_replicate_a (n : Nat) :
    jsTrimList (List.replicate (n + 1) 'a') = List.replicate (n + 1) 'a' := by
  rw [jsTrimList, dropWhile_space_replicate_a, List.reverse_replicate,
    dropWhile_space_replicate_a, List.reverse_replicate]

/-- Claim C3 counterexample: a message of exactly 10001 characters that are
all spaces exceeds 10000 characters, yet the handler answers it with the
required-message 400 body, which does not contain "too long" — the
emptiness check fires before the length check. -/
theorem C3_counterexample :
    (String.mk (List.replicate 10001 ' ')).data.length > 10000 ∧
    (POST envUnconfigured (some spacesBody) (.thrown "Error" "") 0 0).1
      = { status := 400
          body := .errorOnly "Message is required and must be a non-empty string" } ∧
    containsStr "Message is required and must be a non-empty string" "too long" = false := by
  refine ⟨?_, ?_, by decide⟩
  · show (List.replicate 10001 ' ').length > 10000
    rw [List.length_replicate]
    norm_num
  · have ht : jsTrimList (strOf spacesBody.message).data = [] := by
      show jsTrimList (List.replicate 10001 ' ') = []
      rw [jsTrimList, dropWhile_space_replicate]
      rfl
    have h1 : (!jsTruthy spacesBody.message || !isStringVal spacesBody.message
        || (jsTrimList (strOf spacesBody.message).data).length == 0) = true := by
      rw [ht]
      simp
    rw [POST_invalid_shape envUnconfigured spacesBody (.thrown "Error" "") 0 0 h1]

/-- Claim C3 witness: the amended theorem applied to a message of exactly
10001 characters (the letter a repeated) and to a body with an absent
message. -/
theorem C3_witness :
    POST envUnconfigured (some longABody) (.thrown "Error" "") 0 0
      = ({ status := 400
           body := .errorOnly "Message is too long (max 10,000 characters)" }, []) ∧
    containsStr "Message is too long (max 10,000 characters)" "too long" = true ∧
    POST envUnconfigured
        (some { message := .absent, conversationId := none, settings := none })
        (.thrown "Error" "") 0 0
      = ({ status := 400
           body := .errorOnly "Message is required and must be a non-empty string" }, []) := by
  have e : (10001 : Nat) = 10000 + 1 := by norm_num
  have ht : jsTrimList (strOf longABody.message).data = List.replicate 10001 'a' := by
    show jsTrimList (List.replicate 10001 'a') = List.replicate 10001 'a'
    rw [e]
    exact jsTrimList_replicate_a 10000
  have hne : jsTruthy longABody.message = true := by
    show (String.mk (List.replicate 10001 'a') != "") = true
    simp only [bne_iff_ne, ne_eq]
    intro hcontra
    have hlen := congrArg String.length hcontra
    have h10 : (String.mk (List.replicate 10001 'a')).length = 10001 := by
      show (List.replicate 10001 'a').length = 10001
      rw [List.length_replicate]
    rw [h10] at hlen
    exact absurd hlen (by decide)
  have h1 : (!jsTruthy longABody.message || !isStringVal longABody.message
      || (jsTrimList (strOf longABody.message).data).length == 0) = false := by
    rw [ht, hne]
    show (!true || !true || (List.replicate 10001 'a').length == 0) = false
    rw [List.length_replicate]
    decide
  have h2 : (strOf longABody.message).data.length > 10000 := by
    show (List.replicate 10001 'a').length > 10000
    rw [List.length_replicate]
    norm_num
  have hlong := C3_validation_rejects_without_calls.2 envUnconfigured longABody
    (.thrown "Error" "") 0 0 h1 h2
  have habsent := C3_validation_rejects_without_calls.1 envUnconfigured
    { message := .absent, conversationId := none, settings := none }
    (.thrown "Error" "") 0 0 (by decide)
  exact ⟨hlong.1, hlong.2, habsent⟩

/-! ## Idempotence analysis of the cache-key normalizer (claim C4) -/

lemma char_toNat_ofNat_valid (n : Nat) (hv : Nat.isValidChar n) :
    (Char.ofNat n).toNat = n := by
  rw [Char.ofNat, dif_pos hv]
  simp [Char.toNat, Char.ofNatAux, UInt32.toNat, BitVec.toNat_ofNatLt]

lemma jsLowerChar_idem (c : Char) : jsLowerChar (jsLowerChar c) = jsLowerChar c := by
  have hinner : jsLowerChar c
      = if 65 ≤ c.toNat ∧ c.toNat ≤ 90 then Char.ofNat (c.toNat + 32) else c := rfl
  by_cases h : 65 ≤ c.toNat ∧ c.toNat ≤ 90
  · have h1 : jsLowerChar c = Char.ofNat (c.toNat + 32) := by rw [hinner, if_pos h]
    have hv : Nat.isValidChar (c.toNat + 32) := by left; omega
    have ht := char_toNat_ofNat_valid _ hv
    rw [h1, jsLowerChar, if_neg (by rw [ht]; omega)]
  · have h1 : jsLowerChar c = c := by rw [hinner, if_neg h]
    rw [h1]
    exact h1

/-- Two adjacent characters are not both whitespace. -/
def noTwoSpaces (a c : Char) : Prop := ¬(isJsSpace a = true ∧ isJsSpace c = true)

lemma mem_collapseGo (l : List Char) :
    ∀ (b : Bool) (c : Char), c ∈ collapseGo b l →
      c = ' ' ∨ (c ∈ l ∧ isJsSpace c = false) := by
  induction l with
  | nil => intro b c hc; simp [collapseGo] at hc
  | cons a t ih =>
    intro b c hc
    simp only [collapseGo] at hc
    by_cases ha : isJsSpace a = true
    · rw [if_pos ha] at hc
      cases b with
      | true =>
        rw [if_pos rfl] at hc
        rcases ih true c hc with h | ⟨hm, hs⟩
        · exact Or.inl h
        · exact Or.inr ⟨List.mem_cons_of_mem a hm, hs⟩
      | false =>
        rw [if_neg (by simp)] at hc
        rcases List.mem_cons.mp hc with h | h
        · exact Or.inl h
        · rcases ih true c h with h2 | ⟨hm, hs⟩
          · exact Or.inl h2
          · exact Or.inr ⟨List.mem_cons_of_mem a hm, hs⟩
    · rw [if_neg ha] at hc
      rcases List.mem_cons.mp hc with h | h
      · subst h
        exact Or.inr ⟨List.mem_cons_self c t, by simpa using ha⟩
      · rcases ih false c h with h2 | ⟨hm, hs⟩
        · exact Or.inl h2
        · exact Or.inr ⟨List.mem_cons_of_mem a hm, hs⟩

lemma collapseGo_chain (l : List Char) :
    ∀ b : Bool, List.Chain' noTwoSpaces (collapseGo b l)
      ∧ (∀ d t, collapseGo true l = d :: t → isJsSpace d = false) := by
  induction l with
  | nil =>
    intro b
    refine ⟨by simp [collapseGo], ?_⟩
    intro d t h
    simp [collapseGo] at h
  | cons a t ih =>
    intro b
    by_cases ha : isJsSpace a = true
    · constructor
      · cases b with
        | true =>
          simp only [collapseGo, if_pos ha, if_pos rfl]
          exact (ih true).1
        | false =>
          simp only [collapseGo, if_pos ha]
          rw [if_neg (by simp)]
          rw [List.chain'_cons']
          refine ⟨?_, (ih true).1⟩
          intro y hy
          cases hh : collapseGo true t with
          | nil => rw [hh] at hy; simp at hy
          | cons d dt =>
            rw [hh] at hy
            simp only [List.head?_cons, Option.mem_def, Option.some_inj] at hy
            subst hy
            intro hcon
            have := (ih true).2 d dt hh
            rw [this] at hcon
            exact absurd hcon.2 (by simp)
      · intro d dt h
        simp only [collapseGo, if_pos ha, if_pos rfl] at h
        exact (ih true).2 d dt h
    · constructor
      · simp only [collapseGo, if_neg ha]
        rw [List.chain'_cons']
        refine ⟨?_, (ih false).1⟩
        intro y hy
        intro hcon
        exact absurd hcon.1 (by simpa using ha)
      · intro d dt h
        simp only [collapseGo, if_neg ha] at h
        have hd : d = a := (List.cons.injEq _ _ _ _ ▸ h).1.symm
        rw [hd]
        simpa using ha

lemma collapseGo_fixed : ∀ l : List Char,
    (∀ c ∈ l, isJsSpace c = true → c = ' ') →
    List.Chain' noTwoSpaces l →
    ∀ b : Bool, (b = true → ∀ d ∈ l.head?, isJsSpace d = false) →
    collapseGo b l = l := by
  intro l
  induction l with
  | nil => intro _ _ b _; rfl
  | cons a t ih =>
    intro hsp hch b hb
    obtain ⟨hrel, htail⟩ := List.chain'_cons'.mp hch
    by_cases ha : isJsSpace a = true
    · have ha' : a = ' ' := hsp a (List.mem_cons_self a t) ha
      have hbf : b = false := by
        cases b with
        | false => rfl
        | true => exact absurd ha (by simp [hb rfl a rfl])
      subst hbf
      have hhead : ∀ d ∈ t.head?, isJsSpace d = false := by
        intro d hd
        have hnd := hrel d hd
        by_contra hcon
        rw [Bool.not_eq_false] at hcon
        exact hnd ⟨ha, hcon⟩
      have hrest : collapseGo true t = t :=
        ih (fun c hc h => hsp c (List.mem_cons_of_mem a hc) h) htail true
          (fun _ => hhead)
      simp only [collapseGo, if_pos ha]
      rw [if_neg (by simp), hrest, ha']
    · have hrest : collapseGo false t = t :=
        ih (fun c hc h => hsp c (List.mem_cons_of_mem a hc) h) htail false
          (by intro h; exact absurd h (by simp))
      simp only [collapseGo, if_neg ha]
      rw [hrest]

lemma chain'_dropWhile (p : Char → Bool) :
    ∀ l : List Char, List.Chain' noTwoSpaces l →
      List.Chain' noTwoSpaces (l.dropWhile p) := by
  intro l
  induction l with
  | nil => intro h; exact h
  | cons a t ih =>
    intro h
    rw [List.dropWhile_cons]
    split
    · exact ih h.tail
    · exact h

lemma chain'_reverse_noTwoSpaces (l : List Char)
    (h : List.Chain' noTwoSpaces l) : List.Chain' noTwoSpaces l.reverse := by
  rw [List.chain'_reverse]
  exact h.imp (fun a b hab hx => hab ⟨hx.2, hx.1⟩)

lemma chain'_jsTrimList (l : List Char) (h : List.Chain' noTwoSpaces l) :
    List.Chain' noTwoSpaces (jsTrimList l) := by
  rw [jsTrimList]
  exact chain'_reverse_noTwoSpaces _ (chain'_dropWhile _ _
    (chain'_reverse_noTwoSpaces _ (chain'_dropWhile _ _ h)))

lemma mem_jsTrimList (l : List Char) (c : Char) (hc : c ∈ jsTrimList l) : c ∈ l := by
  rw [jsTrimList, List.mem_reverse] at hc
  have hc2 := (List.dropWhile_sublist _).subset hc
  rw [List.mem_reverse] at hc2
  exact (List.dropWhile_sublist _).subset hc2

lemma map_id_on (f : Char → Char) :
    ∀ l : List Char, (∀ c ∈ l, f c = c) → l.map f = l := by
  intro l
  induction l with
  | nil => intro _; rfl
  | cons a t ih =>
    intro h
    rw [List.map_cons, h a (List.mem_cons_self a t),
      ih (fun c hc => h c (List.mem_cons_of_mem a hc))]

/-- Claim C4 (amended): the cache-key normalization is not idempotent in
general — stripping punctuation can expose a leading or trailing space that
the collapse step keeps but a second pass trims.  Applying the normalizer
twice equals trimming its result: for all strings s,
normalizeCacheKey (normalizeCacheKey s) = jsTrim (normalizeCacheKey s), so
idempotence holds exactly for inputs whose normalization carries no boundary
space. -/
theorem C4_normalize_twice_is_trim_of_normalize (s : String) :
    normalizeCacheKey (normalizeCacheKey s) = jsTrim (normalizeCacheKey s) := by
  have hlow : ∀ c ∈ (normalizeCacheKey s).data, jsLowerChar c = c := by
    intro c hc
    rcases mem_collapseGo (stripPunct ((jsTrimList s.data).map jsLowerChar))
        false c hc with h | ⟨hm, _⟩
    · rw [h]; decide
    · have hm2 := List.mem_of_mem_filter hm
      rcases List.mem_map.mp hm2 with ⟨d, _, hd⟩
      rw [← hd]
      exact jsLowerChar_idem d
  have hpunct : ∀ c ∈ (normalizeCacheKey s).data, isStrippedPunct c = false := by
    intro c hc
    rcases mem_collapseGo (stripPunct ((jsTrimList s.data).map jsLowerChar))
        false c hc with h | ⟨hm, _⟩
    · rw [h]; decide
    · have := List.of_mem_filter hm
      simpa using this
  have hsp : ∀ c ∈ (normalizeCacheKey s).data, isJsSpace c = true → c = ' ' := by
    intro c hc hspace
    rcases mem_collapseGo (stripPunct ((jsTrimList s.data).map jsLowerChar))
        false c hc with h | ⟨_, hns⟩
    · exact h
    · rw [hspace] at hns
      exact absurd hns (by simp)
  have hch : List.Chain' noTwoSpaces (normalizeCacheKey s).data :=
    (collapseGo_chain (stripPunct ((jsTrimList s.data).map jsLowerChar)) false).1
  refine congrArg String.mk ?_
  rw [map_id_on jsLowerChar (jsTrimList (normalizeCacheKey s).data)
    (fun c hc => hlow c (mem_jsTrimList _ c hc))]
  rw [stripPunct, List.filter_eq_self.mpr
    (fun c hc => by simp [hpunct c (mem_jsTrimList _ c hc)])]
  exact collapseGo_fixed (jsTrimList (normalizeCacheKey s).data)
    (fun c hc h => hsp c (mem_jsTrimList _ c hc) h)
    (chain'_jsTrimList _ hch) false (by simp)

/-- Claim C4 counterexample: normalization is not idempotent — the input
". a" normalizes to " a" (the stripped period exposes a leading space, which
the collapse step keeps as a single space), and a second normalization trims
it to "a". -/
theorem C4_counterexample :
    normalizeCacheKey ". a" = " a" ∧
    normalizeCacheKey (normalizeCacheKey ". a") = "a" ∧
    normalizeCacheKey (normalizeCacheKey ". a") ≠ normalizeCacheKey ". a" := by
  exact ⟨by decide, by decide, by decide⟩

end NexAI
